import Mathlib

/-!
Verification development for the BiDi `Browser` session manager
(`packages/puppeteer-core/src/common/bidi/Browser.ts`).

The TypeScript class is shallowly embedded: the mutable fields of `Browser`
(`#targets`, `#contexts`, `#browserName`, ...) become fields of explicit state
structures, the protocol-event handlers (`#onContextCreated`,
`#onContextDestroyed`, `#onContextNavigation`) become state-transition
functions that additionally return the list of locally emitted lifecycle
events, and the fallible paths (`throw`, rejected promises) return `Except`.
The JavaScript `Map` backing `#targets` is embedded as an insertion-ordered
association list with `Map.set` / `Map.get` / `Map.delete` semantics.

The `Connection` collaborator is not part of the sources; its interface
(`on`/`off`/`dispose`/`closed`/`getBrowsingContext`/`getTopLevelContext`/
`registerBrowsingContexts`/`send`) is modelled from the spec where noted.
-/

namespace Bidi

/-! ## JavaScript string helpers

`String.prototype.toLocaleLowerCase` (over the ASCII range used by engine
names) and `String.prototype.includes`, embedded over `List Char`. -/

/-- ASCII lowering of one character, as `toLocaleLowerCase` acts on the
engine names involved here. -/
def lowerChar (c : Char) : Char :=
  if 'A' ≤ c ∧ c ≤ 'Z' then Char.ofNat (c.toNat + 32) else c

/-- `s.toLocaleLowerCase()` on the character list of `s`. -/
def lowerStr (s : List Char) : List Char :=
  s.map lowerChar

/-- Does `s` start with `pat`? (helper for `includes`). -/
def strStartsWith : List Char → List Char → Bool
  | _, [] => true
  | [], _ :: _ => false
  | a :: s, b :: t => a = b && strStartsWith s t

/-- `s.includes(pat)`: some contiguous run of `s` equals `pat`. -/
def strContains : List Char → List Char → Bool
  | [], pat => pat.isEmpty
  | a :: s, pat => strStartsWith (a :: s) pat || strContains s pat

/-- `browserName.toLocaleLowerCase().includes('firefox')` from
`Browser.create`. -/
def nameIsFirefox (browserName : String) : Bool :=
  strContains (lowerStr browserName.data) "firefox".data

/-! ## JavaScript `Map` as an insertion-ordered association list

A `Map` holds at most one entry per key; the embedding keeps entries in
insertion order and maintains `(mapKeys m).Nodup` as an invariant. -/

variable {κ : Type} [DecidableEq κ] {β : Type}

/-- The keys of an association list. -/
def mapKeys (m : List (κ × β)) : List κ :=
  m.map Prod.fst

/-- `Map.get`: the value at the first (and, under `mapKeys.Nodup`, only)
entry for `k`. -/
def mapGet : List (κ × β) → κ → Option β
  | [], _ => none
  | p :: m, k => if p.1 = k then some p.2 else mapGet m k

/-- `Map.set`: replace the entry for `k` in place when present, else
append. -/
def mapSet : List (κ × β) → κ → β → List (κ × β)
  | [], k, v => [(k, v)]
  | p :: m, k, v => if p.1 = k then (k, v) :: m else p :: mapSet m k v

/-- `Map.delete`: drop the entry for `k`. -/
def mapDelete : List (κ × β) → κ → List (κ × β)
  | [], _ => []
  | p :: m, k => if p.1 = k then mapDelete m k else p :: mapDelete m k

/-- `Array.from(map.values())`. -/
def mapValues (m : List (κ × β)) : List β :=
  m.map Prod.snd

/-! ## Data model -/

/-- A browsing-context record as built by `#onContextCreated` from the
`browsingContext.contextCreated` payload (`BrowsingContext.Info`):
protocol id, optional parent id, current URL. -/
structure BrowsingContext where
  context : String
  parent : Option String
  url : String
  deriving DecidableEq, Repr, Inhabited

/-- `Viewport` configuration; its contents are irrelevant to the claims,
only its flow from `Options` into the contexts matters. -/
structure Viewport where
  width : Nat
  height : Nat
  deriving DecidableEq, Repr

/-- Which `Target` subclass `#onContextCreated` instantiated:
`BiDiPageTarget` for a parent-less context, plain `BiDiTarget` otherwise. -/
inductive TargetKind
  | page
  | nested
  deriving DecidableEq, Repr

/-- Modelled from the spec: the `BiDiTarget` / `BiDiPageTarget` classes live
in `bidi/Target.ts`, outside the sources; per §3 a Target is "the
automation-facing handle wrapping one Browsing Context, tagged as page-level
or nested", holding a non-owning reference to its Browser Context (here the
index of the owning context in the browser's collection) and to its
Browsing Context. -/
structure BiDiTarget where
  kind : TargetKind
  browserContextIdx : Nat
  context : BrowsingContext
  deriving DecidableEq, Repr

/-- A `BrowserContext` as constructed by the `Browser` constructor and
`createIncognitoBrowserContext`: the default-viewport override and the
`isDefault` flag.  The `oid` field stands for JavaScript object identity
(each `new BrowserContext(...)` yields a distinct object; `_closeContext`
compares with `!==`). -/
structure BrowserContext where
  oid : Nat
  defaultViewport : Option Viewport
  isDefault : Bool
  deriving DecidableEq, Repr, Inhabited

/-- Modelled from the spec: the `Connection` collaborator (`bidi/Connection.ts`)
is outside the sources; §6 specifies its interface.  `closed` is the
"boolean/status query", `url` "the endpoint address", `contextIndex` the
"connection's own index" of browsing contexts fed by
`registerBrowsingContexts`, and `handlers` the event names this browser has
registered a handler for via `on` (removed again by `off`). -/
structure ConnState where
  url : String
  closed : Bool
  contextIndex : List (String × BrowsingContext)
  handlers : List String
  deriving DecidableEq, Repr, Inhabited

/-- `connection.on(eventName, handler)`: register this browser's handler. -/
def connOn (c : ConnState) (eventName : String) : ConnState :=
  { c with handlers := c.handlers ++ [eventName] }

/-- `connection.off(eventName, handler)`: unregister this browser's handler. -/
def connOff (c : ConnState) (eventName : String) : ConnState :=
  { c with handlers := c.handlers.filter fun n => ¬n = eventName }

/-- Modelled from the spec: `Connection.dispose()` ("tear down the
connection", §6); a disposed connection reports `closed`. -/
def connDispose (c : ConnState) : ConnState :=
  { c with closed := true }

/-- `connection.registerBrowsingContexts(context)`: insert into the
connection's own index (§6). -/
def registerBrowsingContexts (c : ConnState) (ctx : BrowsingContext) : ConnState :=
  { c with contextIndex := mapSet c.contextIndex ctx.context ctx }

/-- Modelled from the spec: `connection.getBrowsingContext(id)` "fails if
unknown" (§6). -/
def getBrowsingContext (c : ConnState) (id : String) : Except String BrowsingContext :=
  match mapGet c.contextIndex id with
  | none => .error "BrowsingContext not found"
  | some ctx => .ok ctx

/-- Parent-chain walk for `getTopLevelContext`, with fuel so the recursion
terminates even on a malformed index. -/
def topLevelWalk (c : ConnState) : Nat → String → Except String String
  | 0, _ => .error "BrowsingContext not found"
  | fuel + 1, id =>
    match mapGet c.contextIndex id with
    | none => .error "BrowsingContext not found"
    | some ctx =>
      match ctx.parent with
      | none => .ok id
      | some p => topLevelWalk c fuel p

/-- Modelled from the spec: `connection.getTopLevelContext(id)` "resolves the
root ancestor of a context id" (§6). -/
def getTopLevelContext (c : ConnState) (id : String) : Except String String :=
  topLevelWalk c (c.contextIndex.length + 1) id

/-! ## The Browser state

Fields of the `Browser` class (`#browserName`, `#browserVersion`,
`#closeCallback`, `#connection`, `#defaultViewport`, `#defaultContext`,
`#targets`, `#contexts`).  `nextOid` supplies the identity of the next
`new BrowserContext(...)` object. -/

structure BrowserState where
  browserName : String
  browserVersion : String
  hasCloseCallback : Bool
  conn : ConnState
  defaultViewport : Option Viewport
  defaultContext : BrowserContext
  targets : List (String × BiDiTarget)
  contexts : List BrowserContext
  nextOid : Nat
  deriving DecidableEq, Repr, Inhabited

/-- The `Options` record taken by `Browser.create` and the constructor
(minus the negotiated name/version, which the constructor receives
separately). -/
structure Options where
  hasCloseCallback : Bool
  connection : ConnState
  defaultViewport : Option Viewport
  ignoreHTTPSErrors : Bool
  deriving DecidableEq, Repr, Inhabited

namespace Browser

/-- `Browser.subscribeModules`. -/
def subscribeModules : List String :=
  ["browsingContext", "network", "log"]

/-- `Browser.subscribeCdpEvents` (the source list, duplicated
`cdp.Debugger.scriptParsed` entry included). -/
def subscribeCdpEvents : List String :=
  ["cdp.Debugger.scriptParsed",
   "cdp.CSS.styleSheetAdded",
   "cdp.Runtime.executionContextsCleared",
   "cdp.Tracing.tracingComplete",
   "cdp.Network.requestWillBeSent",
   "cdp.Debugger.scriptParsed"]

/-- The keys of the `#connectionEventHandlers` map, in insertion order. -/
def connectionEventHandlerNames : List String :=
  ["browsingContext.contextCreated",
   "browsingContext.contextDestroyed",
   "browsingContext.fragmentNavigated",
   "browsingContext.navigationStarted"]

/-- The `Browser` constructor: store the options and negotiated
name/version, create the default `BrowserContext` (with
`isDefault: true`), push it onto `#contexts`, and register every
`#connectionEventHandlers` entry on the connection. -/
def mk (opts : Options) (browserName browserVersion : String) : BrowserState :=
  let defaultContext : BrowserContext :=
    { oid := 0, defaultViewport := opts.defaultViewport, isDefault := true }
  { browserName
    browserVersion
    hasCloseCallback := opts.hasCloseCallback
    conn := connectionEventHandlerNames.foldl connOn opts.connection
    defaultViewport := opts.defaultViewport
    defaultContext
    targets := []
    contexts := [defaultContext]
    nextOid := 1 }

end Browser

/-! ## Locally emitted lifecycle events

Each `emit` performed by the handlers, tagged by the emitter: the `Browser`
itself, a `BrowserContext` (identified by its position in `#contexts` at
emission time), or a top-level `BrowsingContext` (identified by its id). -/

inductive Emitted
  | targetCreatedOnBrowser (t : BiDiTarget)
  | targetCreatedOnContext (idx : Nat) (t : BiDiTarget)
  | targetDestroyedOnBrowser (t : BiDiTarget)
  | targetDestroyedOnContext (idx : Nat) (t : BiDiTarget)
  | targetChangedOnBrowser (t : BiDiTarget)
  | targetChangedOnContext (idx : Nat) (t : BiDiTarget)
  | contextCreatedOnTopLevel (topLevelId : String) (ctx : BrowsingContext)
  | contextDestroyedOnTopLevel (topLevelId : String) (ctx : BrowsingContext)
  deriving DecidableEq, Repr

/-- Is this `emit` one of the two "target destroyed" notifications? -/
def Emitted.isTargetDestroyed : Emitted → Bool
  | .targetDestroyedOnBrowser _ => true
  | .targetDestroyedOnContext _ _ => true
  | _ => false

namespace Browser

/-- The target value built inside `Browser.#onContextCreated` by
`const target = !context.parent ? new BiDiPageTarget(browserContext,
context) : new BiDiTarget(browserContext, context);`, owned by
`browserContexts().at(-1)`. -/
def createdTarget (b : BrowserState) (context : BrowsingContext) : BiDiTarget :=
  { kind := if context.parent.isNone then .page else .nested
    browserContextIdx := b.contexts.length - 1
    context }

/-- `Browser.#onContextCreated`: build the `BrowsingContext` record from the
event payload, register it with the connection, pick the owning browser
context as `browserContexts().at(-1)` (throwing `'Missing browser contexts'`
when none exists), build `createdTarget`, insert it into `#targets` keyed by
the context id, emit `TargetCreated` on the browser and the owning context,
and, for a child context, emit `Created` on the parent's top-level
context. -/
def onContextCreated (b : BrowserState) (event : BrowsingContext) :
    Except String (BrowserState × List Emitted) :=
  let context := event
  let conn := registerBrowsingContexts b.conn context
  match b.contexts.getLast? with
  | none => .error "Missing browser contexts"
  | some _browserContext =>
    let target := createdTarget b context
    let targets := mapSet b.targets event.context target
    let emits :=
      [Emitted.targetCreatedOnBrowser target,
        Emitted.targetCreatedOnContext target.browserContextIdx target]
    match context.parent with
    | none => .ok ({ b with conn, targets }, emits)
    | some parent =>
      match getTopLevelContext conn parent with
      | .error e => .error e
      | .ok topLevel =>
        .ok ({ b with conn, targets },
          emits ++ [Emitted.contextCreatedOnTopLevel topLevel context])

/-- `Browser.#onContextDestroyed`: look up the context and its top-level
ancestor, emit `Destroyed` on the top-level context, close the target's page
if a target is registered (a content-object effect outside this state;
failures are logged), delete the id from `#targets`, and, only when a target
was registered, emit `TargetDestroyed` on the browser and the owning
context. -/
def onContextDestroyed (b : BrowserState) (id : String) :
    Except String (BrowserState × List Emitted) :=
  match getBrowsingContext b.conn id with
  | .error e => .error e
  | .ok context =>
    match getTopLevelContext b.conn id with
    | .error e => .error e
    | .ok topLevelContext =>
      let emits := [Emitted.contextDestroyedOnTopLevel topLevelContext context]
      let target? := mapGet b.targets id
      let targets := mapDelete b.targets id
      match target? with
      | none => .ok ({ b with targets }, emits)
      | some target =>
        .ok ({ b with targets },
          emits ++ [Emitted.targetDestroyedOnBrowser target,
            Emitted.targetDestroyedOnContext target.browserContextIdx target])

/-- `Browser.#onContextNavigation`: update the stored URL on the connection's
record of the context, and emit `TargetChanged` on the browser and the owning
context when a target is registered for the id. -/
def onContextNavigation (b : BrowserState) (id url : String) :
    Except String (BrowserState × List Emitted) :=
  match getBrowsingContext b.conn id with
  | .error e => .error e
  | .ok context =>
    let conn := { b.conn with
      contextIndex := mapSet b.conn.contextIndex id { context with url } }
    match mapGet b.targets id with
    | none => .ok ({ b with conn }, [])
    | some target =>
      .ok ({ b with conn },
        [Emitted.targetChangedOnBrowser target,
          Emitted.targetChangedOnContext target.browserContextIdx target])

end Browser

/-! ## Public lifecycle operations -/

/-- A disposal side effect performed by `Browser.close`, in order. -/
inductive CloseEffect
  | offHandler (eventName : String)
  | disposeConnection
  | invokeCloseCallback
  deriving DecidableEq, Repr

namespace Browser

/-- `Browser.close()`: unregister every `#connectionEventHandlers` entry from
the connection; if the connection is already closed, return; otherwise
dispose the connection and invoke `#closeCallback` when one was given.  The
returned list records the disposal side effects of this call. -/
def close (b : BrowserState) : BrowserState × List CloseEffect :=
  let conn := connectionEventHandlerNames.foldl connOff b.conn
  let offs := connectionEventHandlerNames.map CloseEffect.offHandler
  if conn.closed then
    ({ b with conn }, offs)
  else
    let conn := connDispose conn
    ({ b with conn },
      offs ++ [CloseEffect.disposeConnection]
        ++ if b.hasCloseCallback then [CloseEffect.invokeCloseCallback] else [])

/-- `Browser.isConnected()`. -/
def isConnected (b : BrowserState) : Bool :=
  ¬b.conn.closed

/-- `Browser.version()`: the template string `` `${name}/${version}` ``. -/
def version (b : BrowserState) : String :=
  b.browserName ++ "/" ++ b.browserVersion

/-- `Browser.wsEndpoint()`. -/
def wsEndpoint (b : BrowserState) : String :=
  b.conn.url

/-- `Browser.browserContexts()`: returns `this.#contexts` (the internal
array itself; see the heap model below for the aliasing consequence). -/
def browserContexts (b : BrowserState) : List BrowserContext :=
  b.contexts

/-- `Browser.defaultBrowserContext()`. -/
def defaultBrowserContext (b : BrowserState) : BrowserContext :=
  b.defaultContext

/-- `Browser.targets()`: `Array.from(this.#targets.values())`. -/
def targets (b : BrowserState) : List BiDiTarget :=
  mapValues b.targets

/-- `Browser._getTargetById(id)`: throws `'Target not found'` for an
unregistered id. -/
def getTargetById (b : BrowserState) (id : String) : Except String BiDiTarget :=
  match mapGet b.targets id with
  | none => .error "Target not found"
  | some target => .ok target

/-- `Browser.createIncognitoBrowserContext(options)`: construct a fresh
non-default `BrowserContext` sharing the default viewport and push it onto
`#contexts`. -/
def createIncognitoBrowserContext (b : BrowserState) :
    BrowserState × BrowserContext :=
  let context : BrowserContext :=
    { oid := b.nextOid, defaultViewport := b.defaultViewport, isDefault := false }
  ({ b with contexts := b.contexts ++ [context], nextOid := b.nextOid + 1 }, context)

/-- `Browser._closeContext(browserContext)`: filter the context out of
`#contexts` by object identity (`c !== browserContext`); the per-target page
closes are content-object effects outside this state. -/
def _closeContext (b : BrowserState) (browserContext : BrowserContext) : BrowserState :=
  { b with contexts := b.contexts.filter fun c => ¬c.oid = browserContext.oid }

end Browser

/-- Modelled from the spec: `BrowserContext.close` lives in
`bidi/BrowserContext.ts`, outside the sources.  Per §4.3
("`defaultBrowserContext()`: returns the permanently-present default Browser
Context; callers must never be able to close it") and §3 ("Exactly one
default context exists per Browser and it is never removable"), a close
directed at the default context fails without touching the collection;
otherwise it delegates to `Browser._closeContext`. -/
def BrowserContext.close (b : BrowserState) (ctx : BrowserContext) :
    Except String BrowserState :=
  if ctx.isDefault then .error "Default context cannot be closed"
  else .ok (Browser._closeContext b ctx)

/-! ## Bootstrap (`Browser.create`) -/

/-- The `result.capabilities` payload of a successful `session.new`. -/
structure Capabilities where
  browserName : Option String
  browserVersion : Option String
  deriving DecidableEq, Repr

deriving instance DecidableEq for Except

/-- Modelled from the spec: the outcomes of the three bootstrap round-trips
(`Connection.send`, "round-trip, may fail", §6), fixed in advance by the
remote engine: `session.new`, `session.subscribe` and
`browsingContext.getTree`. -/
structure CreateOracle where
  sessionNew : Except String Capabilities
  sessionSubscribe : Except String Unit
  getTree : Except String (List BrowsingContext)
  deriving DecidableEq, Repr

/-- What `Browser.create` produced: the `events` list sent with
`session.subscribe`, and the browser returned to the caller. -/
structure CreateOutput where
  sentSubscribeEvents : List String
  browser : BrowserState
  deriving DecidableEq, Repr, Inhabited

namespace Browser

/-- `Browser.#getTree`: fetch `browsingContext.getTree` and feed every
returned context through `#onContextCreated`. -/
def getTreeSeed (b : BrowserState) : List BrowsingContext →
    Except String BrowserState
  | [] => .ok b
  | ctx :: rest =>
    match onContextCreated b ctx with
    | .error e => .error e
    | .ok (b', _) => getTreeSeed b' rest

/-- `Browser.create(opts)`: attempt `session.new` (a failure is swallowed
via `debugError`, leaving name/version as `''`); send `session.subscribe`
with the base modules only when the lowered browser name includes
`'firefox'`, else base modules plus the CDP event list; construct the
`Browser`; seed the registry from `browsingContext.getTree`.  Failures of
the subscribe or tree fetch propagate to the caller. -/
def create (opts : Options) (oracle : CreateOracle) : Except String CreateOutput :=
  let (browserName, browserVersion) :=
    match oracle.sessionNew with
    | .ok result =>
      (result.browserName.getD "", result.browserVersion.getD "")
    | .error _ => ("", "")
  let events :=
    if nameIsFirefox browserName then subscribeModules
    else subscribeModules ++ subscribeCdpEvents
  match oracle.sessionSubscribe with
  | .error e => .error e
  | .ok () =>
    let browser := Browser.mk opts browserName browserVersion
    match oracle.getTree with
    | .error e => .error e
    | .ok contexts =>
      match getTreeSeed browser contexts with
      | .error e => .error e
      | .ok browser => .ok { sentSubscribeEvents := events, browser }

end Browser

/-! ## Sequences of context lifecycle events -/

/-- One inbound protocol event handled by the browser's context handlers. -/
inductive CtxEvent
  | created (info : BrowsingContext)
  | destroyed (id : String)
  deriving DecidableEq, Repr

/-- Dispatch one event to its handler. -/
def stepEvent (b : BrowserState) : CtxEvent → Except String (BrowserState × List Emitted)
  | .created info => Browser.onContextCreated b info
  | .destroyed id => Browser.onContextDestroyed b id

/-- Handle a sequence of events in delivery order. -/
def runEvents (b : BrowserState) : List CtxEvent → Except String BrowserState
  | [] => .ok b
  | e :: rest =>
    match stepEvent b e with
    | .error msg => .error msg
    | .ok (b', _) => runEvents b' rest

/-- How one event changes whether `id` is live. -/
def stepLive (e : CtxEvent) (id : String) (live : Bool) : Bool :=
  match e with
  | .created info => if info.context = id then true else live
  | .destroyed i => if i = id then false else live

/-- Is `id` live after `events`, given that it started with liveness
`start`: the last event naming `id` was a `created`? -/
def liveFrom (start : Bool) (events : List CtxEvent) (id : String) : Bool :=
  events.foldl (fun live e => stepLive e id live) start

/-! ## Aliasing model for `targets()` and `browserContexts()`

`targets()` returns `Array.from(this.#targets.values())` — a freshly
allocated array — while `browserContexts()` returns `this.#contexts`, the
internal array object itself.  To state what mutating the returned array
does to the browser, arrays are placed on an explicit heap of references:
the browser's `#contexts` field is a reference into the heap, and each call
either hands out that same reference or allocates a fresh one. -/

/-- The JavaScript heap restricted to the array objects involved:
`BrowserContext[]` arrays and `Target[]` arrays, addressed by reference. -/
structure Heap where
  nextRef : Nat
  ctxArrays : List (Nat × List BrowserContext)
  targetArrays : List (Nat × List BiDiTarget)
  deriving DecidableEq, Repr, Inhabited

/-- The heap-resident fields of the browser: `#contexts` is a reference to
an array object on the heap; `#targets` is the `Map` of targets, whose
values `targets()` copies out. -/
structure BrowserHeapView where
  contextsRef : Nat
  targets : List (String × BiDiTarget)
  deriving DecidableEq, Repr, Inhabited

/-- Dereference a `BrowserContext[]` array. -/
def heapCtxArray (h : Heap) (r : Nat) : List BrowserContext :=
  (mapGet h.ctxArrays r).getD []

/-- `browser.targets()` under the heap model: allocate a fresh array holding
the values of `#targets` (that is `Array.from(this.#targets.values())`) and
return its reference. -/
def targetsCall (b : BrowserHeapView) (h : Heap) : Heap × Nat :=
  ({ h with
      nextRef := h.nextRef + 1
      targetArrays := mapSet h.targetArrays h.nextRef (mapValues b.targets) },
    h.nextRef)

/-- `browser.browserContexts()` under the heap model: return the reference
stored in `#contexts` — `return this.#contexts;` hands out the internal
array object itself. -/
def browserContextsCall (b : BrowserHeapView) (h : Heap) : Heap × Nat :=
  (h, b.contextsRef)

/-- The external caller mutates the `BrowserContext[]` array behind `r`
(for example `arr.push(...)`). -/
def mutateCtxArray (h : Heap) (r : Nat) (f : List BrowserContext → List BrowserContext) :
    Heap :=
  { h with ctxArrays := mapSet h.ctxArrays r (f (heapCtxArray h r)) }

/-- The external caller mutates the `Target[]` array behind `r`. -/
def mutateTargetArray (h : Heap) (r : Nat) (f : List BiDiTarget → List BiDiTarget) :
    Heap :=
  { h with
      targetArrays := mapSet h.targetArrays r (f ((mapGet h.targetArrays r).getD [])) }

/-- The browser's internal state as an observer sees it: the Browser Context
collection behind `#contexts`, and the Target registry. -/
def observeInternal (b : BrowserHeapView) (h : Heap) :
    List BrowserContext × List (String × BiDiTarget) :=
  (heapCtxArray h b.contextsRef, b.targets)

/-! ## Concrete example inputs used by the evaluation witnesses -/

def exConn : ConnState :=
  { url := "ws://127.0.0.1:9222/session", closed := false, contextIndex := [],
    handlers := [] }

def exOpts : Options :=
  { hasCloseCallback := true, connection := exConn, defaultViewport := none,
    ignoreHTTPSErrors := false }

def exBrowser : BrowserState := Browser.mk exOpts "Chrome" "114.0.5"

def exInfoTop : BrowsingContext :=
  { context := "ctx-a", parent := none, url := "about:blank" }

def exInfoChild : BrowsingContext :=
  { context := "ctx-b", parent := some "ctx-a", url := "about:blank" }

def exEvents : List CtxEvent :=
  [.created exInfoTop, .created exInfoChild, .destroyed "ctx-b"]

def exRunResult : BrowserState :=
  ((runEvents exBrowser exEvents).toOption).getD default

def exB8 : BrowserState :=
  { exBrowser with conn := registerBrowsingContexts exBrowser.conn exInfoTop }

def exCreatedOut : BrowserState × List Emitted :=
  ((Browser.onContextCreated exB8 exInfoChild).toOption).getD default

def exDestroyedOut : BrowserState × List Emitted :=
  ((Browser.onContextDestroyed exB8 "ctx-a").toOption).getD default

def exOracleTreeFail : CreateOracle :=
  { sessionNew := .ok { browserName := some "Chrome", browserVersion := some "114" }
    sessionSubscribe := .ok ()
    getTree := .error "tree fetch failed" }

def exOracleFirefox : CreateOracle :=
  { sessionNew := .ok { browserName := some "Firefox Nightly", browserVersion := some "117" }
    sessionSubscribe := .ok ()
    getTree := .ok [] }

def exCreateFirefoxOut : CreateOutput :=
  ((Browser.create exOpts exOracleFirefox).toOption).getD default

def exOracleNegFail : CreateOracle :=
  { sessionNew := .error "session.new not supported"
    sessionSubscribe := .ok ()
    getTree := .ok [] }

def exHeapB : BrowserHeapView := { contextsRef := 0, targets := [] }

def exHeap : Heap :=
  { nextRef := 1
    ctxArrays := [(0, [{ oid := 0, defaultViewport := none, isDefault := true }])]
    targetArrays := [] }

def exExtraContext : BrowserContext :=
  { oid := 1, defaultViewport := none, isDefault := false }

def exClosedBrowser : BrowserState :=
  { exBrowser with conn := { exBrowser.conn with closed := true } }

/-! ## Lemmas about the `Map` embedding -/

theorem mapGet_set_self (m : List (κ × β)) (k : κ) (v : β) :
    mapGet (mapSet m k v) k = some v := by
  induction m with
  | nil => simp [mapSet, mapGet]
  | cons p m ih =>
    by_cases h : p.1 = k
    · simp [mapSet, mapGet, h]
    · simp [mapSet, mapGet, h, ih]

theorem mapGet_set_ne (m : List (κ × β)) (k k' : κ) (v : β) (h : k' ≠ k) :
    mapGet (mapSet m k v) k' = mapGet m k' := by
  have h' : ¬k = k' := fun hh => h hh.symm
  induction m with
  | nil => simp [mapSet, mapGet, h']
  | cons p m ih =>
    by_cases hp : p.1 = k
    · subst hp
      simp [mapSet, mapGet, h']
    · simp only [mapSet, hp, if_false, mapGet]
      by_cases hp' : p.1 = k'
      · simp [hp']
      · simp [hp', ih]

theorem mapGet_delete_self (m : List (κ × β)) (k : κ) :
    mapGet (mapDelete m k) k = none := by
  induction m with
  | nil => simp [mapDelete, mapGet]
  | cons p m ih =>
    by_cases h : p.1 = k
    · simp [mapDelete, h, ih]
    · simp [mapDelete, mapGet, h, ih]

theorem mapGet_delete_ne (m : List (κ × β)) (k k' : κ) (h : k' ≠ k) :
    mapGet (mapDelete m k) k' = mapGet m k' := by
  have h' : ¬k = k' := fun hh => h hh.symm
  induction m with
  | nil => simp [mapDelete]
  | cons p m ih =>
    by_cases hp : p.1 = k
    · subst hp
      simp [mapDelete, mapGet, h', ih]
    · simp only [mapDelete, hp, if_false, mapGet]
      by_cases hp' : p.1 = k'
      · simp [hp']
      · simp [hp', ih]

theorem mapDelete_of_get_none (m : List (κ × β)) (k : κ) (h : mapGet m k = none) :
    mapDelete m k = m := by
  induction m with
  | nil => simp [mapDelete]
  | cons p m ih =>
    by_cases hp : p.1 = k
    · simp [mapGet, hp] at h
    · simp only [mapGet, hp, if_false] at h
      simp [mapDelete, hp, ih h]

theorem mem_mapKeys_set (m : List (κ × β)) (k : κ) (v : β) (x : κ) :
    x ∈ mapKeys (mapSet m k v) ↔ x = k ∨ x ∈ mapKeys m := by
  induction m with
  | nil => simp [mapSet, mapKeys]
  | cons p m ih =>
    by_cases hp : p.1 = k
    · subst hp
      simp [mapSet, mapKeys]
    · simp only [mapSet, hp, if_false, mapKeys, List.map_cons, List.mem_cons] at ih ⊢
      rw [ih]
      tauto

theorem nodup_mapKeys_set (m : List (κ × β)) (k : κ) (v : β)
    (h : (mapKeys m).Nodup) : (mapKeys (mapSet m k v)).Nodup := by
  induction m with
  | nil => simp [mapSet, mapKeys]
  | cons p m ih =>
    simp only [mapKeys, List.map_cons, List.nodup_cons] at h
    by_cases hp : p.1 = k
    · subst hp
      simpa [mapSet, mapKeys] using h
    · simp only [mapSet, hp, if_false, mapKeys, List.map_cons, List.nodup_cons]
      refine ⟨?_, ih h.2⟩
      rw [show (mapSet m k v).map Prod.fst = mapKeys (mapSet m k v) from rfl,
        mem_mapKeys_set]
      push_neg
      exact ⟨hp, h.1⟩

theorem mapKeys_delete_sublist (m : List (κ × β)) (k : κ) :
    List.Sublist (mapKeys (mapDelete m k)) (mapKeys m) := by
  induction m with
  | nil => simp [mapDelete, mapKeys]
  | cons p m ih =>
    by_cases hp : p.1 = k
    · simp only [mapDelete, hp, if_true, mapKeys, List.map_cons]
      exact List.Sublist.cons _ ih
    · simp only [mapDelete, hp, if_false, mapKeys, List.map_cons]
      exact List.Sublist.cons₂ _ ih

theorem nodup_mapKeys_delete (m : List (κ × β)) (k : κ)
    (h : (mapKeys m).Nodup) : (mapKeys (mapDelete m k)).Nodup :=
  h.sublist (mapKeys_delete_sublist m k)

theorem onContextCreated_ok (b : BrowserState) (info : BrowsingContext)
    (b1 : BrowserState) (tr : List Emitted)
    (h : Browser.onContextCreated b info = .ok (b1, tr)) :
    b1 = { b with
      conn := registerBrowsingContexts b.conn info
      targets := mapSet b.targets info.context (Browser.createdTarget b info) } := by
  simp only [Browser.onContextCreated] at h
  split at h
  · exact Except.noConfusion h
  · split at h
    · injection h with h'
      injection h' with hb _
      exact hb.symm
    · split at h
      · exact Except.noConfusion h
      · injection h with h'
        injection h' with hb _
        exact hb.symm

theorem onContextDestroyed_ok (b : BrowserState) (id : String)
    (b1 : BrowserState) (tr : List Emitted)
    (h : Browser.onContextDestroyed b id = .ok (b1, tr)) :
    b1 = { b with targets := mapDelete b.targets id } := by
  simp only [Browser.onContextDestroyed] at h
  split at h
  · exact Except.noConfusion h
  · split at h
    · exact Except.noConfusion h
    · split at h
      · injection h with h'
        injection h' with hb _
        exact hb.symm
      · injection h with h'
        injection h' with hb _
        exact hb.symm

theorem isSome_mapGet_iff_mem (m : List (κ × β)) (k : κ) :
    (mapGet m k).isSome = true ↔ k ∈ mapKeys m := by
  induction m with
  | nil => simp [mapGet, mapKeys]
  | cons p m ih =>
    by_cases hp : p.1 = k
    · simp [mapGet, mapKeys, hp]
    · simp only [mapGet, hp, if_false, mapKeys, List.map_cons, List.mem_cons]
      rw [ih]
      constructor
      · exact Or.inr
      · rintro (h | h)
        · exact absurd h.symm hp
        · exact h

/-! ## Liveness of context ids along an event sequence -/

theorem liveFrom_cons (start : Bool) (e : CtxEvent) (events : List CtxEvent)
    (id : String) :
    liveFrom start (e :: events) id = liveFrom (stepLive e id start) events id := rfl

theorem isSome_set_stepLive (m : List (String × BiDiTarget))
    (info : BrowsingContext) (t : BiDiTarget) (id : String) :
    (mapGet (mapSet m info.context t) id).isSome =
      stepLive (.created info) id (mapGet m id).isSome := by
  by_cases hc : info.context = id
  · subst hc
    simp [mapGet_set_self, stepLive]
  · rw [mapGet_set_ne _ _ _ _ fun hh => hc hh.symm]
    simp [stepLive, hc]

theorem isSome_delete_stepLive (m : List (String × BiDiTarget)) (did id : String) :
    (mapGet (mapDelete m did) id).isSome =
      stepLive (.destroyed did) id (mapGet m id).isSome := by
  by_cases hc : did = id
  · subst hc
    simp [mapGet_delete_self, stepLive]
  · rw [mapGet_delete_ne _ _ _ fun hh => hc hh.symm]
    simp [stepLive, hc]

theorem runEvents_live (events : List CtxEvent) :
    ∀ b b' : BrowserState, runEvents b events = .ok b' →
      (mapKeys b.targets).Nodup →
      (mapKeys b'.targets).Nodup ∧
        ∀ id, (mapGet b'.targets id).isSome =
          liveFrom (mapGet b.targets id).isSome events id := by
  induction events with
  | nil =>
    intro b b' h hn
    simp only [runEvents] at h
    injection h with h
    subst h
    exact ⟨hn, fun _ => rfl⟩
  | cons e rest ih =>
    intro b b' h hn
    cases e with
    | created info =>
      cases hs : Browser.onContextCreated b info with
      | error msg =>
        simp only [runEvents, stepEvent, hs] at h
        exact Except.noConfusion h
      | ok pr =>
        obtain ⟨b1, tr⟩ := pr
        simp only [runEvents, stepEvent, hs] at h
        obtain rfl := onContextCreated_ok b info b1 tr hs
        obtain ⟨N, H⟩ := ih _ _ h (nodup_mapKeys_set _ _ _ hn)
        refine ⟨N, fun id => ?_⟩
        rw [H id, liveFrom_cons]
        simp only [isSome_set_stepLive]
    | destroyed did =>
      cases hs : Browser.onContextDestroyed b did with
      | error msg =>
        simp only [runEvents, stepEvent, hs] at h
        exact Except.noConfusion h
      | ok pr =>
        obtain ⟨b1, tr⟩ := pr
        simp only [runEvents, stepEvent, hs] at h
        obtain rfl := onContextDestroyed_ok b did b1 tr hs
        obtain ⟨N, H⟩ := ih _ _ h (nodup_mapKeys_delete _ _ hn)
        refine ⟨N, fun id => ?_⟩
        rw [H id, liveFrom_cons]
        simp only [isSome_delete_stepLive]

/-! ## Lemmas about `close()` -/

theorem foldl_connOff_closed (names : List String) :
    ∀ c : ConnState, (names.foldl connOff c).closed = c.closed := by
  induction names with
  | nil => intro c; rfl
  | cons n ns ih => intro c; rw [List.foldl_cons, ih]; rfl

theorem notMem_handlers_connOff (c : ConnState) (n x : String)
    (h : x ∉ c.handlers) : x ∉ (connOff c n).handlers := by
  simp only [connOff]
  intro hx
  exact h (List.mem_filter.mp hx).1

theorem notMem_handlers_connOff_self (c : ConnState) (n : String) :
    n ∉ (connOff c n).handlers := by
  simp only [connOff]
  intro hx
  have := (List.mem_filter.mp hx).2
  simp at this

theorem foldl_connOff_preserve (names : List String) :
    ∀ (c : ConnState) (x : String), x ∉ c.handlers →
      x ∉ (names.foldl connOff c).handlers := by
  induction names with
  | nil => intro c x h; exact h
  | cons n ns ih =>
    intro c x h
    rw [List.foldl_cons]
    exact ih _ x (notMem_handlers_connOff c n x h)

theorem foldl_connOff_notMem (names : List String) :
    ∀ (c : ConnState) (x : String), x ∈ names →
      x ∉ (names.foldl connOff c).handlers := by
  induction names with
  | nil => intro c x hx; cases hx
  | cons n ns ih =>
    intro c x hx
    rw [List.foldl_cons]
    rcases List.mem_cons.mp hx with h | h
    · subst h
      by_cases hmem : x ∈ ns
      · exact ih _ x hmem
      · exact foldl_connOff_preserve ns _ x (notMem_handlers_connOff_self c x)
    · exact ih _ x h

theorem close_conn_closed (b : BrowserState) :
    ((Browser.close b).1).conn.closed = true := by
  simp only [Browser.close]
  by_cases hc : (Browser.connectionEventHandlerNames.foldl connOff b.conn).closed
  · simp [hc]
  · simp [hc, connDispose]

theorem close_effects_of_closed (b : BrowserState) (h : b.conn.closed = true) :
    (Browser.close b).2 =
      Browser.connectionEventHandlerNames.map CloseEffect.offHandler := by
  simp only [Browser.close]
  rw [foldl_connOff_closed, h]
  simp

/-! ## Lemmas about `Browser.create` -/

theorem getTreeSeed_fields (ctxs : List BrowsingContext) :
    ∀ b b2 : BrowserState, Browser.getTreeSeed b ctxs = .ok b2 →
      b2.browserName = b.browserName ∧ b2.browserVersion = b.browserVersion ∧
        b2.contexts = b.contexts := by
  induction ctxs with
  | nil =>
    intro b b2 h
    simp only [Browser.getTreeSeed] at h
    injection h with h
    subst h
    exact ⟨rfl, rfl, rfl⟩
  | cons ctx rest ih =>
    intro b b2 h
    cases hs : Browser.onContextCreated b ctx with
    | error e =>
      simp only [Browser.getTreeSeed, hs] at h
      exact Except.noConfusion h
    | ok pr =>
      obtain ⟨b1, tr⟩ := pr
      simp only [Browser.getTreeSeed, hs] at h
      obtain rfl := onContextCreated_ok b ctx b1 tr hs
      obtain ⟨h1, h2, h3⟩ := ih _ _ h
      exact ⟨h1, h2, h3⟩

theorem create_ok_shape (opts : Options) (oracle : CreateOracle)
    (out : CreateOutput) (h : Browser.create opts oracle = .ok out) :
    out.sentSubscribeEvents =
      (if nameIsFirefox out.browser.browserName then Browser.subscribeModules
        else Browser.subscribeModules ++ Browser.subscribeCdpEvents) := by
  cases hneg : oracle.sessionNew with
  | error e =>
    cases hsub : oracle.sessionSubscribe with
    | error e' =>
      simp only [Browser.create, hneg, hsub] at h
      exact Except.noConfusion h
    | ok u =>
      obtain ⟨⟩ := u
      cases htree : oracle.getTree with
      | error e' =>
        simp only [Browser.create, hneg, hsub, htree] at h
        exact Except.noConfusion h
      | ok ctxs =>
        simp only [Browser.create, hneg, hsub, htree] at h
        cases hseed : Browser.getTreeSeed (Browser.mk opts "" "") ctxs with
        | error e' =>
          simp only [hseed] at h
          exact Except.noConfusion h
        | ok b2 =>
          simp only [hseed, Except.ok.injEq] at h
          subst h
          have hname : b2.browserName = "" := (getTreeSeed_fields ctxs _ _ hseed).1
          simp [hname]
  | ok result =>
    cases hsub : oracle.sessionSubscribe with
    | error e' =>
      simp only [Browser.create, hneg, hsub] at h
      exact Except.noConfusion h
    | ok u =>
      obtain ⟨⟩ := u
      cases htree : oracle.getTree with
      | error e' =>
        simp only [Browser.create, hneg, hsub, htree] at h
        exact Except.noConfusion h
      | ok ctxs =>
        simp only [Browser.create, hneg, hsub, htree] at h
        cases hseed : Browser.getTreeSeed
            (Browser.mk opts (result.browserName.getD "")
              (result.browserVersion.getD "")) ctxs with
        | error e' =>
          simp only [hseed] at h
          exact Except.noConfusion h
        | ok b2 =>
          simp only [hseed, Except.ok.injEq] at h
          subst h
          have hname : b2.browserName = result.browserName.getD "" :=
            (getTreeSeed_fields ctxs _ _ hseed).1
          simp [hname]

/-! ## The claims -/

/-- C1: for every sequence of context-created/context-destroyed events
handled from a freshly constructed browser, the Target registry has no
duplicate context ids, and it holds an entry for an id exactly when the id
is currently live (its `contextCreated` was handled with no later
`contextDestroyed`) — so exactly one entry per live id and zero entries per
destroyed id. -/
theorem registry_exact_per_live_context (opts : Options) (name ver : String)
    (events : List CtxEvent) (b' : BrowserState)
    (h : runEvents (Browser.mk opts name ver) events = .ok b') (id : String) :
    (mapKeys b'.targets).Nodup ∧
      (mapGet b'.targets id).isSome = liveFrom false events id ∧
      (mapKeys b'.targets).count id =
        (if liveFrom false events id then 1 else 0) := by
  obtain ⟨N, H⟩ := runEvents_live events _ _ h (by simp [Browser.mk, mapKeys])
  have H' : (mapGet b'.targets id).isSome = liveFrom false events id := H id
  refine ⟨N, H', ?_⟩
  cases hl : liveFrom false events id with
  | true =>
    simp only [if_true]
    exact List.count_eq_one_of_mem N
      ((isSome_mapGet_iff_mem _ _).mp (by rw [H']; exact hl))
  | false =>
    simp only [Bool.false_eq_true, if_false]
    apply List.count_eq_zero_of_not_mem
    intro hmem
    have : (mapGet b'.targets id).isSome = true :=
      (isSome_mapGet_iff_mem _ _).mpr hmem
    rw [H', hl] at this
    exact Bool.noConfusion this

/-- Evaluation witness for `registry_exact_per_live_context` on the
sequence create "ctx-a", create child "ctx-b", destroy "ctx-b". -/
theorem registry_exact_per_live_context_witness :
    (mapKeys exRunResult.targets).Nodup ∧
      (mapGet exRunResult.targets "ctx-a").isSome = liveFrom false exEvents "ctx-a" ∧
      (mapKeys exRunResult.targets).count "ctx-a" =
        (if liveFrom false exEvents "ctx-a" then 1 else 0) :=
  registry_exact_per_live_context exOpts "Chrome" "114.0.5" exEvents exRunResult
    (by decide) "ctx-a"

/-- C2: immediately after construction the Browser Context collection is
exactly the default context (which `defaultBrowserContext()` returns and
which carries `isDefault`), and a close operation directed at any default
context fails with an error instead of reaching `_closeContext`, so it never
removes the default context from the collection. -/
theorem default_context_present_and_unclosable (opts : Options) (name ver : String)
    (b : BrowserState) (ctx : BrowserContext) (hd : ctx.isDefault = true) :
    Browser.browserContexts (Browser.mk opts name ver) =
        [Browser.defaultBrowserContext (Browser.mk opts name ver)] ∧
      (Browser.defaultBrowserContext (Browser.mk opts name ver)).isDefault = true ∧
      BrowserContext.close b ctx = .error "Default context cannot be closed" := by
  refine ⟨rfl, rfl, ?_⟩
  simp [BrowserContext.close, hd]

/-- Evaluation witness for `default_context_present_and_unclosable` on the
example browser and its default context. -/
theorem default_context_present_and_unclosable_witness :
    exBrowser.defaultContext.isDefault = true ∧
      (Browser.browserContexts (Browser.mk exOpts "Chrome" "114.0.5") =
          [Browser.defaultBrowserContext (Browser.mk exOpts "Chrome" "114.0.5")] ∧
        (Browser.defaultBrowserContext
          (Browser.mk exOpts "Chrome" "114.0.5")).isDefault = true ∧
        BrowserContext.close exBrowser exBrowser.defaultContext =
          .error "Default context cannot be closed") :=
  ⟨by decide,
    default_context_present_and_unclosable exOpts "Chrome" "114.0.5" exBrowser
      exBrowser.defaultContext (by decide)⟩

/-- C3: `close()` is idempotent — after a completed first `close()`, a
second `close()` performs no further disposal and no further close-callback
invocation (and `close` is a total function, so no error is raised), and a
`close()` on an already-closed connection performs only the handler
unregistrations, neither disposing nor invoking the callback. -/
theorem close_idempotent (b : BrowserState) :
    (Browser.close (Browser.close b).1).2.count CloseEffect.disposeConnection = 0 ∧
      (Browser.close (Browser.close b).1).2.count CloseEffect.invokeCloseCallback = 0 ∧
      (b.conn.closed = true →
        (Browser.close b).2 =
          Browser.connectionEventHandlerNames.map CloseEffect.offHandler) := by
  have h2 := close_effects_of_closed _ (close_conn_closed b)
  rw [h2]
  exact ⟨by decide, by decide, fun hc => close_effects_of_closed b hc⟩

/-- Evaluation witness for `close_idempotent` on a browser whose connection
is already closed. -/
theorem close_idempotent_witness :
    (Browser.close (Browser.close exClosedBrowser).1).2.count
        CloseEffect.disposeConnection = 0 ∧
      (Browser.close (Browser.close exClosedBrowser).1).2.count
        CloseEffect.invokeCloseCallback = 0 ∧
      (exClosedBrowser.conn.closed = true →
        (Browser.close exClosedBrowser).2 =
          Browser.connectionEventHandlerNames.map CloseEffect.offHandler) :=
  close_idempotent exClosedBrowser

/-- C4: when the `session.subscribe` round-trip succeeds but the initial
`browsingContext.getTree` fetch fails, `Browser.create` returns that very
failure and no `Browser` value. -/
theorem create_tree_failure_propagates (opts : Options) (oracle : CreateOracle)
    (e : String) (hsub : oracle.sessionSubscribe = .ok ())
    (htree : oracle.getTree = .error e) :
    Browser.create opts oracle = .error e := by
  cases hneg : oracle.sessionNew <;>
    simp [Browser.create, hneg, hsub, htree]

/-- Evaluation witness for `create_tree_failure_propagates` on an oracle
whose tree fetch fails. -/
theorem create_tree_failure_propagates_witness :
    exOracleTreeFail.sessionSubscribe = .ok () ∧
      exOracleTreeFail.getTree = .error "tree fetch failed" ∧
      Browser.create exOpts exOracleTreeFail = .error "tree fetch failed" :=
  ⟨rfl, rfl, create_tree_failure_propagates exOpts exOracleTreeFail _ rfl rfl⟩

/-- C5: whenever `Browser.create` succeeds, the `session.subscribe` command
carried exactly the 3 base modules when the negotiated engine name contains
"firefox" case-insensitively, and the 3 base modules followed by the 6
entries of the CDP event list otherwise. -/
theorem subscribe_events_by_engine (opts : Options) (oracle : CreateOracle)
    (out : CreateOutput) (h : Browser.create opts oracle = .ok out) :
    Browser.subscribeModules.length = 3 ∧
      Browser.subscribeCdpEvents.length = 6 ∧
      (nameIsFirefox out.browser.browserName = true →
        out.sentSubscribeEvents = Browser.subscribeModules) ∧
      (nameIsFirefox out.browser.browserName = false →
        out.sentSubscribeEvents =
          Browser.subscribeModules ++ Browser.subscribeCdpEvents) := by
  have hs := create_ok_shape opts oracle out h
  refine ⟨rfl, rfl, fun hf => ?_, fun hf => ?_⟩
  · rw [hs, hf]
    simp
  · rw [hs, hf]
    simp

/-- Evaluation witness for `subscribe_events_by_engine` on a successful
bootstrap that negotiated the name "Firefox Nightly". -/
theorem subscribe_events_by_engine_witness :
    Browser.create exOpts exOracleFirefox = .ok exCreateFirefoxOut ∧
      (Browser.subscribeModules.length = 3 ∧
        Browser.subscribeCdpEvents.length = 6 ∧
        (nameIsFirefox exCreateFirefoxOut.browser.browserName = true →
          exCreateFirefoxOut.sentSubscribeEvents = Browser.subscribeModules) ∧
        (nameIsFirefox exCreateFirefoxOut.browser.browserName = false →
          exCreateFirefoxOut.sentSubscribeEvents =
            Browser.subscribeModules ++ Browser.subscribeCdpEvents)) :=
  ⟨by decide, subscribe_events_by_engine exOpts exOracleFirefox exCreateFirefoxOut
    (by decide)⟩

/-- C6: the target that `#onContextCreated` registers under the created
context's id is a page target exactly when the context has no parent and a
nested target exactly when it has one. -/
theorem created_target_kind_matches_parent (b : BrowserState)
    (info : BrowsingContext) (b1 : BrowserState) (tr : List Emitted)
    (h : Browser.onContextCreated b info = .ok (b1, tr)) :
    (mapGet b1.targets info.context).map BiDiTarget.kind =
      some (if info.parent.isNone then TargetKind.page else TargetKind.nested) := by
  obtain rfl := onContextCreated_ok b info b1 tr h
  simp [mapGet_set_self, Browser.createdTarget]

/-- Evaluation witness for `created_target_kind_matches_parent` on a child
context creation (a nested target). -/
theorem created_target_kind_matches_parent_witness :
    (mapGet exCreatedOut.1.targets exInfoChild.context).map BiDiTarget.kind =
      some (if exInfoChild.parent.isNone then TargetKind.page
        else TargetKind.nested) :=
  created_target_kind_matches_parent exB8 exInfoChild exCreatedOut.1
    exCreatedOut.2 (by decide)

/-- C7: when `session.new` fails but the remaining bootstrap round-trips
succeed (with an empty initial tree), `Browser.create` still returns a
Browser whose negotiated name and version are both the empty string, so
`version()` yields "/"; the negotiation failure is not surfaced. -/
theorem negotiation_failure_nonfatal (opts : Options) (oracle : CreateOracle)
    (e : String) (hneg : oracle.sessionNew = .error e)
    (hsub : oracle.sessionSubscribe = .ok ()) (htree : oracle.getTree = .ok []) :
    Browser.create opts oracle =
        .ok { sentSubscribeEvents :=
                Browser.subscribeModules ++ Browser.subscribeCdpEvents
              browser := Browser.mk opts "" "" } ∧
      (Browser.mk opts "" "").browserName = "" ∧
      (Browser.mk opts "" "").browserVersion = "" ∧
      Browser.version (Browser.mk opts "" "") = "/" := by
  refine ⟨?_, rfl, rfl, rfl⟩
  simp [Browser.create, hneg, hsub, htree, Browser.getTreeSeed,
    show nameIsFirefox "" = false from rfl]

/-- Evaluation witness for `negotiation_failure_nonfatal` on an oracle whose
`session.new` is rejected. -/
theorem negotiation_failure_nonfatal_witness :
    Browser.create exOpts exOracleNegFail =
        .ok { sentSubscribeEvents :=
                Browser.subscribeModules ++ Browser.subscribeCdpEvents
              browser := Browser.mk exOpts "" "" } ∧
      (Browser.mk exOpts "" "").browserName = "" ∧
      (Browser.mk exOpts "" "").browserVersion = "" ∧
      Browser.version (Browser.mk exOpts "" "") = "/" :=
  negotiation_failure_nonfatal exOpts exOracleNegFail "session.new not supported"
    rfl rfl rfl

/-- C8: a `contextDestroyed` event whose id has no registered Target still
emits exactly the single top-level "context destroyed" notification (on the
top-level ancestor resolved through the connection), emits no
"target destroyed" event, and leaves the Target registry unchanged. -/
theorem destroy_without_target_emits_only_context (b : BrowserState)
    (id : String) (b1 : BrowserState) (tr : List Emitted)
    (hnone : mapGet b.targets id = none)
    (h : Browser.onContextDestroyed b id = .ok (b1, tr)) :
    b1.targets = b.targets ∧
      tr = [Emitted.contextDestroyedOnTopLevel
        ((getTopLevelContext b.conn id).toOption.getD "")
        ((getBrowsingContext b.conn id).toOption.getD default)] ∧
      tr.countP (fun ev => ev.isTargetDestroyed) = 0 := by
  cases hg : getBrowsingContext b.conn id with
  | error e =>
    simp only [Browser.onContextDestroyed, hg] at h
    exact Except.noConfusion h
  | ok ctx =>
    cases ht : getTopLevelContext b.conn id with
    | error e =>
      simp only [Browser.onContextDestroyed, hg, ht] at h
      exact Except.noConfusion h
    | ok top =>
      simp only [Browser.onContextDestroyed, hg, ht, hnone, Except.ok.injEq,
        Prod.mk.injEq] at h
      obtain ⟨hb, htr⟩ := h
      subst hb
      subst htr
      refine ⟨mapDelete_of_get_none _ _ hnone, ?_, ?_⟩
      · simp [hg, ht, Except.toOption]
      · simp [List.countP_cons, Emitted.isTargetDestroyed]

/-- Evaluation witness for `destroy_without_target_emits_only_context` on a
browser that knows context "ctx-a" but has no Target for it. -/
theorem destroy_without_target_emits_only_context_witness :
    mapGet exB8.targets "ctx-a" = none ∧
      (exDestroyedOut.1.targets = exB8.targets ∧
        exDestroyedOut.2 = [Emitted.contextDestroyedOnTopLevel
          ((getTopLevelContext exB8.conn "ctx-a").toOption.getD "")
          ((getBrowsingContext exB8.conn "ctx-a").toOption.getD default)] ∧
        exDestroyedOut.2.countP (fun ev => ev.isTargetDestroyed) = 0) :=
  ⟨by decide,
    destroy_without_target_emits_only_context exB8 "ctx-a" exDestroyedOut.1
      exDestroyedOut.2 (by decide) (by decide)⟩

/-- C9 counterexample: `browserContexts()` returns `this.#contexts` itself,
so pushing onto the returned array changes the browser's internal Browser
Context collection — refuting the claim that mutating the array returned by
`targets()` or `browserContexts()` always leaves the internal state
unchanged. -/
theorem returned_contexts_alias_mutation_observable :
    observeInternal exHeapB
        (mutateCtxArray (browserContextsCall exHeapB exHeap).1
          (browserContextsCall exHeapB exHeap).2 fun a => a ++ [exExtraContext]) ≠
      observeInternal exHeapB exHeap := by decide

/-- C9 (amended): mutating the freshly allocated array returned by
`targets()` leaves both the internal Browser Context collection and the
Target registry unchanged, and mutating the array returned by
`browserContexts()` leaves the Target registry unchanged (though, being the
internal array itself, it does mutate the Browser Context collection). -/
theorem returned_snapshot_mutation_frame (b : BrowserHeapView) (h : Heap)
    (f : List BiDiTarget → List BiDiTarget)
    (g : List BrowserContext → List BrowserContext) :
    observeInternal b
        (mutateTargetArray (targetsCall b h).1 (targetsCall b h).2 f) =
      observeInternal b h ∧
      (observeInternal b
          (mutateCtxArray (browserContextsCall b h).1
            (browserContextsCall b h).2 g)).2 =
        (observeInternal b h).2 :=
  ⟨rfl, rfl⟩

/-- C10: `close()` unregisters all four `#connectionEventHandlers` entries
from the connection before checking the closed flag, so after any `close()`
— including one that takes the early-return path on an already-closed
connection — none of this browser's protocol event handlers remains
registered. -/
theorem close_unregisters_all_handlers (b : BrowserState) (name : String)
    (hmem : name ∈ Browser.connectionEventHandlerNames) :
    name ∉ ((Browser.close b).1).conn.handlers := by
  simp only [Browser.close]
  split
  · exact foldl_connOff_notMem _ _ _ hmem
  · exact foldl_connOff_notMem _ _ _ hmem

/-- Evaluation witness for `close_unregisters_all_handlers` on the
`contextCreated` handler of a browser whose connection is already closed
(the early-return path). -/
theorem close_unregisters_all_handlers_witness :
    "browsingContext.contextCreated" ∈ Browser.connectionEventHandlerNames ∧
      "browsingContext.contextCreated" ∉
        ((Browser.close exClosedBrowser).1).conn.handlers :=
  ⟨by decide,
    close_unregisters_all_handlers exClosedBrowser
      "browsingContext.contextCreated" (by decide)⟩

end Bidi
